import Mathlib

/-!
Verification of the Miscreated RCON client (misrcon.py).

This file gives a shallow embedding of the `MiscreatedRCON` class: the
transport-facing helpers `exec_cmd` and `exec_cmd_params`, the handshake
functions `challenge_rcon` and `do_authentication`, the result classifiers
`is_cmd_success` and `is_bad_results_11`, the command driver `send_command`,
and the batch driver `multi_rcon`.

The remote server is modelled as an oracle assigning to each transport call
(in call order) an outcome: a returned string, an OSError (with or without
the "timed out" text), or a non-OSError exception.  The process-wide socket
default timeout, the number of transport calls of each kind, and the number
of sleeps are threaded through a `World` record so that frame and resource
claims can be stated.  Python exceptions that escape a function are modelled
with `Except`; the nonterminating retry loop of `send_command` is given
explicit fuel.
-/

namespace Misrcon

/-! ## String utilities mirroring the Python primitives used by the source -/

/-- Whitespace characters stripped by the Python `str.strip()` method. -/
def isPyWS (c : Char) : Bool :=
  c == ' ' || c == '\t' || c == '\n' || c == '\r' || c == '\x0b' || c == '\x0c'

/-- Python `value.strip()`: remove leading and trailing whitespace. -/
def pyStrip (s : String) : String :=
  String.mk (((s.data.dropWhile isPyWS).reverse.dropWhile isPyWS).reverse)

/-- Python `value[:11]`: the first eleven characters of a string. -/
def pySlice11 (s : String) : String :=
  String.mk (s.data.take 11)

/-- Does the character list `hay` start with `needle`? -/
def leadsWith : List Char → List Char → Bool
  | [], _ => true
  | _ :: _, [] => false
  | a :: as, b :: bs => a == b && leadsWith as bs

/-- Python substring containment on character lists. -/
def occursInL (needle : List Char) : List Char → Bool
  | [] => needle.isEmpty
  | c :: rest => leadsWith needle (c :: rest) || occursInL needle rest

/-- Python `needle in hay` for strings: substring containment. -/
def occursIn (needle hay : String) : Bool :=
  occursInL needle.data hay.data

/-- Python `command.split(' ')` on character lists: split on every single
occurrence of the separator, keeping empty pieces. -/
def splitOnChar (sep : Char) : List Char → List (List Char)
  | [] => [[]]
  | c :: rest =>
      let r := splitOnChar sep rest
      if c == sep then [] :: r
      else
        match r with
        | h :: t => (c :: h) :: t
        | [] => [[c]]

/-- Python `command.split(' ')`. -/
def pySplitSpace (s : String) : List String :=
  (splitOnChar ' ' s.data).map String.mk

/-- Python `' '.join(parts)`. -/
def joinSpace : List String → String
  | [] => ""
  | [s] => s
  | s :: rest => s ++ " " ++ joinSpace rest

/-! ## MD5 (hashlib.md5(...).hexdigest()), on `Nat` with explicit mod 2^32 -/

/-- Left rotation of a 32-bit word held in a `Nat`. -/
def rotl32 (x n : Nat) : Nat :=
  ((x <<< n) ||| (x >>> (32 - n))) % 4294967296

/-- Little-endian byte decomposition: `n` bytes of the value `v`. -/
def toLE (n v : Nat) : List Nat :=
  (List.range n).map (fun i => (v >>> (8 * i)) % 256)

/-- The 64 MD5 sine-derived round constants. -/
def md5K : List Nat :=
  [0xd76aa478, 0xe8c7b756, 0x242070db, 0xc1bdceee,
   0xf57c0faf, 0x4787c62a, 0xa8304613, 0xfd469501,
   0x698098d8, 0x8b44f7af, 0xffff5bb1, 0x895cd7be,
   0x6b901122, 0xfd987193, 0xa679438e, 0x49b40821,
   0xf61e2562, 0xc040b340, 0x265e5a51, 0xe9b6c7aa,
   0xd62f105d, 0x02441453, 0xd8a1e681, 0xe7d3fbc8,
   0x21e1cde6, 0xc33707d6, 0xf4d50d87, 0x455a14ed,
   0xa9e3e905, 0xfcefa3f8, 0x676f02d9, 0x8d2a4c8a,
   0xfffa3942, 0x8771f681, 0x6d9d6122, 0xfde5380c,
   0xa4beea44, 0x4bdecfa9, 0xf6bb4b60, 0xbebfbc70,
   0x289b7ec6, 0xeaa127fa, 0xd4ef3085, 0x04881d05,
   0xd9d4d039, 0xe6db99e5, 0x1fa27cf8, 0xc4ac5665,
   0xf4292244, 0x432aff97, 0xab9423a7, 0xfc93a039,
   0x655b59c3, 0x8f0ccc92, 0xffeff47d, 0x85845dd1,
   0x6fa87e4f, 0xfe2ce6e0, 0xa3014314, 0x4e0811a1,
   0xf7537e82, 0xbd3af235, 0x2ad7d2bb, 0xeb86d391]

/-- The 64 MD5 per-round left-rotation amounts. -/
def md5S : List Nat :=
  [7, 12, 17, 22, 7, 12, 17, 22, 7, 12, 17, 22, 7, 12, 17, 22,
   5, 9, 14, 20, 5, 9, 14, 20, 5, 9, 14, 20, 5, 9, 14, 20,
   4, 11, 16, 23, 4, 11, 16, 23, 4, 11, 16, 23, 4, 11, 16, 23,
   6, 10, 15, 21, 6, 10, 15, 21, 6, 10, 15, 21, 6, 10, 15, 21]

/-- The MD5 nonlinear mixing function for operation `i`. -/
def md5F (i b c d : Nat) : Nat :=
  if i < 16 then (b &&& c) ||| ((b ^^^ 4294967295) &&& d)
  else if i < 32 then (d &&& b) ||| ((d ^^^ 4294967295) &&& c)
  else if i < 48 then b ^^^ c ^^^ d
  else c ^^^ (b ||| (d ^^^ 4294967295))

/-- The MD5 message-word index for operation `i`. -/
def md5g (i : Nat) : Nat :=
  if i < 16 then i
  else if i < 32 then (5 * i + 1) % 16
  else if i < 48 then (3 * i + 5) % 16
  else (7 * i) % 16

/-- One MD5 operation on the running state, with `m` the sixteen words of
the current block. -/
def md5op (m : List Nat) (st : Nat × Nat × Nat × Nat) (i : Nat) :
    Nat × Nat × Nat × Nat :=
  match st with
  | (a, b, c, d) =>
      let f := (md5F i b c d + a + md5K.getD i 0 + m.getD (md5g i) 0) % 4294967296
      (d, (b + rotl32 f (md5S.getD i 0)) % 4294967296, b, c)

/-- Group a byte list into little-endian 32-bit words. -/
def bytesToWords : List Nat → List Nat
  | b0 :: b1 :: b2 :: b3 :: rest =>
      (b0 + b1 * 256 + b2 * 65536 + b3 * 16777216) :: bytesToWords rest
  | _ => []

/-- Process one 64-byte block, given as bytes. -/
def md5block (st : Nat × Nat × Nat × Nat) (chunk : List Nat) :
    Nat × Nat × Nat × Nat :=
  match st with
  | (a0, b0, c0, d0) =>
      match (List.range 64).foldl (md5op (bytesToWords chunk)) (a0, b0, c0, d0) with
      | (a, b, c, d) =>
          ((a0 + a) % 4294967296, (b0 + b) % 4294967296,
           (c0 + c) % 4294967296, (d0 + d) % 4294967296)

/-- MD5 padding: append 0x80, zeros to 56 mod 64, then the 64-bit
little-endian bit length. -/
def md5pad (m : List Nat) : List Nat :=
  m ++ [0x80] ++ List.replicate ((119 - m.length % 64) % 64) 0
    ++ toLE 8 ((m.length * 8) % 18446744073709551616)

/-- Split a padded byte list into 64-byte chunks. -/
def chunks64 (l : List Nat) : List (List Nat) :=
  if h : l = [] then []
  else l.take 64 :: chunks64 (l.drop 64)
termination_by l.length
decreasing_by
  have hp : 0 < l.length := List.length_pos.mpr h
  simp only [List.length_drop]
  omega

/-- A hexadecimal digit character. -/
def hexDigit (n : Nat) : Char :=
  if n < 10 then Char.ofNat (48 + n) else Char.ofNat (87 + n)

/-- Two lowercase hex characters for one byte. -/
def byteToHex (b : Nat) : List Char :=
  [hexDigit (b / 16), hexDigit (b % 16)]

/-- The UTF-8 bytes of a string, as `Nat` values. -/
def utf8Bytes (s : String) : List Nat :=
  s.toUTF8.toList.map UInt8.toNat

/-- The MD5 hex digest of the UTF-8 encoding of a string, mirroring the
hashlib md5 hexdigest call of the source. -/
def md5hex (s : String) : String :=
  match (chunks64 (md5pad (utf8Bytes s))).foldl md5block
      (0x67452301, 0xefcdab89, 0x98badcfe, 0x10325476) with
  | (a, b, c, d) =>
      String.mk (((toLE 4 a ++ toLE 4 b ++ toLE 4 c ++ toLE 4 d).map byteToHex).flatten)

/-- The string hashed during the handshake: the source builds an f-string
joining the challenge and the password with a colon. -/
def authString (challenge password : String) : String :=
  challenge ++ ":" ++ password

/-- The submitted credential: the MD5 hex digest of the authentication
string, as computed by the source before the authenticate call. -/
def credential (challenge password : String) : String :=
  md5hex (authString challenge password)

/-! ## The transport oracle and the process state -/

/-- Outcome of one remote transport call.  The constructor `ok` carries the
returned string together with the fact whether the Python float constructor
accepts it (only consulted at the challenge call site); `osError` is an
OSError, with the flag telling whether its text contains the words timed
out; `otherExc` is any exception that is not an OSError, such as a protocol
error on a malformed response. -/
inductive CallResult where
  | ok (s : String) (numeric : Bool)
  | osError (timedOut : Bool)
  | otherExc
deriving DecidableEq, Repr

/-- A Python exception escaping one of the modelled functions. -/
inductive PyExc where
  | osErrTimeout
  | osErrOther
  | typeError
  | nameError
  | otherError
deriving DecidableEq, Repr

/-- Decidable equality for fallible results, used to evaluate the model on
concrete inputs. -/
def exceptDecEq {ε α : Type} [DecidableEq ε] [DecidableEq α] :
    DecidableEq (Except ε α) := fun a b =>
  match a, b with
  | .error e1, .error e2 =>
      if h : e1 = e2 then .isTrue (by rw [h])
      else .isFalse (by intro hc; cases hc; exact h rfl)
  | .error _, .ok _ => .isFalse (by intro hc; cases hc)
  | .ok _, .error _ => .isFalse (by intro hc; cases hc)
  | .ok v1, .ok v2 =>
      if h : v1 = v2 then .isTrue (by rw [h])
      else .isFalse (by intro hc; cases hc; exact h rfl)

instance {ε α : Type} [DecidableEq ε] [DecidableEq α] :
    DecidableEq (Except ε α) := exceptDecEq

/-- Ambient process state threaded through every transport call: the next
oracle index `k` (equal to the number of transport calls made so far), the
process-wide socket default timeout, and counters for sleeps, challenge
calls and authenticate calls. -/
structure World where
  k : Nat
  timeout : Option Nat
  sleeps : Nat
  challengeCalls : Nat
  authCalls : Nat
deriving DecidableEq, Repr

/-- The initial process state: no calls made, no ambient timeout. -/
def w0 : World := ⟨0, none, 0, 0, 0⟩

/-- Value of the Python variable holding a command result: a string, the
literal False, or None. -/
inductive PyVal where
  | pyStr (s : String)
  | pyFalse
  | pyNone
deriving DecidableEq, Repr

/-- Value returned by challenge_rcon: None, True, or False. -/
inductive PyTri where
  | pyNone
  | pyTrue
  | pyFalse
deriving DecidableEq, Repr

/-- Value of the local variable challenge inside the retry loop of
challenge_rcon: not yet bound, the literal None, or a string. -/
inductive ChalVar where
  | unbound
  | pyNoneV
  | strV (s : String)
deriving DecidableEq, Repr

/-! ## Transport helpers: exec_cmd and exec_cmd_params -/

/-- Embedding of MiscreatedRCON.exec_cmd: install the 5 second default
timeout, invoke the remote operation named by the command and strip the
result, restore the timeout and return the pair of result and True; an
OSError is caught and turned into the pair of False and False, skipping the
restore; any other exception propagates, also skipping the restore. -/
def exec_cmd (oracle : Nat → CallResult) (cmd : String) (w : World) :
    Except PyExc (PyVal × Bool) × World :=
  let _ := cmd
  let w1 : World := { w with timeout := some 5 }
  match oracle w1.k with
  | .ok s _ => (.ok (.pyStr (pyStrip s), true), { w1 with k := w1.k + 1, timeout := none })
  | .osError _ => (.ok (.pyFalse, false), { w1 with k := w1.k + 1 })
  | .otherExc => (.error .otherError, { w1 with k := w1.k + 1 })

/-- Embedding of MiscreatedRCON.exec_cmd_params: identical control flow to
exec_cmd, with the single string parameter passed to the remote call. -/
def exec_cmd_params (oracle : Nat → CallResult) (cmd params : String) (w : World) :
    Except PyExc (PyVal × Bool) × World :=
  let _ := cmd
  let _ := params
  let w1 : World := { w with timeout := some 5 }
  match oracle w1.k with
  | .ok s _ => (.ok (.pyStr (pyStrip s), true), { w1 with k := w1.k + 1, timeout := none })
  | .osError _ => (.ok (.pyFalse, false), { w1 with k := w1.k + 1 })
  | .otherExc => (.error .otherError, { w1 with k := w1.k + 1 })

/-! ## Result classifiers -/

/-- Embedding of MiscreatedRCON.is_cmd_success: the result counts as a
failure exactly when it equals the challenge rejection marker or None. -/
def is_cmd_success (result : PyVal) : Bool :=
  match result with
  | .pyStr s => !(s == "[Whitelist] Invalid command: challenge")
  | .pyNone => false
  | .pyFalse => true

/-- Embedding of MiscreatedRCON.is_bad_results_11.  A truthy value is cut
to its first eleven characters; an empty value returns the passed flag; a
value that is a substring of the literal left-bracket Whitelist
right-bracket marker returns False (the source binds that literal, without
a trailing comma, so the membership test is Python substring containment);
any other value returns the passed flag.  A non-string value such as the
literal False reaches the len call and raises a TypeError. -/
def is_bad_results_11 (value : PyVal) (success : Bool) : Except PyExc Bool :=
  match value with
  | .pyStr s =>
      if s = "" then .ok success
      else if occursIn (pySlice11 s) "[Whitelist]" then .ok false
      else .ok success
  | .pyFalse => .error .typeError
  | .pyNone => .error .typeError

/-! ## The handshake: challenge_rcon and do_authentication -/

/-- The retry loop of MiscreatedRCON.challenge_rcon.  Each iteration
installs the 5 second timeout, makes one challenge call, and either accepts
a float-parseable result (setting the counter so the loop exits) or, on any
exception from the call or from float, sets the challenge to None and
sleeps a quarter second; the timeout is restored after the try block on
both paths. -/
def chalLoop (oracle : Nat → CallResult) : Nat → ChalVar → World → ChalVar × World
  | 0, ch, w => (ch, w)
  | r + 1, _, w =>
      let w1 : World := { w with timeout := some 5, challengeCalls := w.challengeCalls + 1 }
      match oracle w1.k with
      | .ok s true =>
          (.strV s, { w1 with k := w1.k + 1, timeout := none })
      | .ok _ false =>
          chalLoop oracle r .pyNoneV
            { w1 with k := w1.k + 1, timeout := none, sleeps := w1.sleeps + 1 }
      | .osError _ =>
          chalLoop oracle r .pyNoneV
            { w1 with k := w1.k + 1, timeout := none, sleeps := w1.sleeps + 1 }
      | .otherExc =>
          chalLoop oracle r .pyNoneV
            { w1 with k := w1.k + 1, timeout := none, sleeps := w1.sleeps + 1 }

/-- Embedding of MiscreatedRCON.challenge_rcon.  After the retry loop: if
the challenge variable was never bound (a retry budget of zero) the
membership test raises a NameError; if the challenge is None the function
returns None; otherwise the credential is derived and one authenticate call
is made under the scoped timeout, whose restore is skipped when the call
raises.  The literal response authorized yields True, anything else False. -/
def challenge_rcon (oracle : Nat → CallResult) (password : String) (retry : Nat)
    (w : World) : Except PyExc PyTri × World :=
  match chalLoop oracle retry .unbound w with
  | (.unbound, w1) => (.error .nameError, w1)
  | (.pyNoneV, w1) => (.ok .pyNone, w1)
  | (.strV s, w1) =>
      let _ := credential s password
      let w2 : World := { w1 with timeout := some 5 }
      match oracle w2.k with
      | .ok resp _ =>
          let w3 : World :=
            { w2 with k := w2.k + 1, authCalls := w2.authCalls + 1, timeout := none }
          if resp == "authorized" then (.ok .pyTrue, w3)
          else (.ok .pyFalse, w3)
      | .osError t =>
          (.error (if t then .osErrTimeout else .osErrOther),
           { w2 with k := w2.k + 1, authCalls := w2.authCalls + 1 })
      | .otherExc =>
          (.error .otherError,
           { w2 with k := w2.k + 1, authCalls := w2.authCalls + 1 })

/-- Python value returned by do_authentication: the pair of the challenge
result and the success flag, or the bare None produced when an OSError
without the timed out text is swallowed by its except clause. -/
inductive DoAuthRet where
  | pair (challenge : PyTri) (success : Bool)
  | noneRet
deriving DecidableEq, Repr

/-- Embedding of MiscreatedRCON.do_authentication: wrap challenge_rcon,
returning its value paired with True on a normal return; an OSError whose
text contains timed out becomes the pair of False and False; any other
OSError falls off the end of the except clause and the function returns the
bare None; exceptions that are not OSError propagate. -/
def do_authentication (oracle : Nat → CallResult) (password : String) (retry : Nat)
    (w : World) : Except PyExc DoAuthRet × World :=
  match challenge_rcon oracle password retry w with
  | (.ok t, w1) => (.ok (.pair t true), w1)
  | (.error .osErrTimeout, w1) => (.ok (.pair .pyFalse false), w1)
  | (.error .osErrOther, w1) => (.ok .noneRet, w1)
  | (.error e, w1) => (.error e, w1)

/-! ## The command driver: send_command -/

/-- The status dictionary returned by send_command. -/
structure CmdStatus where
  success : Bool
  returned : String
deriving DecidableEq, Repr

/-- Outcome of a send_command run: a returned status, a propagated
exception, or exhaustion of the fuel bounding the unbounded retry loop. -/
inductive Outcome where
  | ret (st : CmdStatus)
  | exc (e : PyExc)
  | fuelOut
deriving DecidableEq, Repr

/-- One command invocation, choosing exec_cmd_params when the parameter
string is nonempty (Python truthiness of params) and exec_cmd otherwise. -/
def execCall (oracle : Nat → CallResult) (cmd params : String) (w : World) :
    Except PyExc (PyVal × Bool) × World :=
  if params = "" then exec_cmd oracle cmd w
  else exec_cmd_params oracle cmd params w

/-- The final classification after the retry loop of send_command exits
with a nominally successful result: is_bad_results_11 is applied with the
success flag True, and its result together with the raw text forms the
returned status; a non-string result makes that call raise a TypeError. -/
def finalizeCmd (cmdResult : PyVal) (w : World) : Outcome × World :=
  match cmdResult with
  | .pyStr s =>
      match is_bad_results_11 (.pyStr s) true with
      | .ok b => (.ret ⟨b, s⟩, w)
      | .error e => (.exc e, w)
  | _ => (.exc .typeError, w)

/-- The nested retry loops of send_command, flattened: while the result is
not classified as a success, first authenticate while not authenticated
(counting failed handshakes, returning the fatal could-not-authenticate
status when the count exceeds 3, and sleeping a quarter second otherwise),
then run the command again.  A handshake whose returned challenge value is
not the literal False is accepted, its success flag becoming the new
authenticated flag.  The fuel argument only bounds the otherwise unbounded
loop. -/
def sendLoop (oracle : Nat → CallResult) (password cmd params : String)
    (retry : Nat) : Nat → Nat → Bool → World → Outcome × World
  | 0, _, _, w => (.fuelOut, w)
  | fuel + 1, authAttempt, authenticated, w =>
      if authenticated then
        match execCall oracle cmd params w with
        | (.error e, w1) => (.exc e, w1)
        | (.ok (cmdResult, auth2), w1) =>
            if is_cmd_success cmdResult then finalizeCmd cmdResult w1
            else sendLoop oracle password cmd params retry fuel authAttempt auth2 w1
      else
        match do_authentication oracle password retry w with
        | (.error e, w1) => (.exc e, w1)
        | (.ok .noneRet, w1) => (.exc .typeError, w1)
        | (.ok (.pair ch auth2), w1) =>
            if ch = .pyFalse then
              if authAttempt + 1 > 3 then
                (.ret ⟨false, "Could not authenticate with RCON"⟩, w1)
              else
                sendLoop oracle password cmd params retry fuel (authAttempt + 1) false
                  { w1 with sleeps := w1.sleeps + 1 }
            else sendLoop oracle password cmd params retry fuel authAttempt auth2 w1

/-- Embedding of MiscreatedRCON.send_command.  A missing command returns a
failure status at once.  The command string is split on single spaces, the
first piece being the operation name and the rest, joined, the parameters.
The optimistic attempt runs the command without authenticating; its result
is classified by is_cmd_success and then is_bad_results_11, and returned at
once when the classification is truthy and the stripped text is not the
Illegal Command marker.  Otherwise the authenticated retry loop runs. -/
def send_command (oracle : Nat → CallResult) (password : String)
    (command : Option String) (retry fuel : Nat) (w : World) : Outcome × World :=
  match command with
  | none => (.ret ⟨false, "No command was passed"⟩, w)
  | some cstr =>
      let parts := pySplitSpace cstr
      let cmd := parts.headD ""
      let cmdList := parts.tail
      let params := if cmdList.isEmpty then "" else joinSpace cmdList
      match execCall oracle cmd params w with
      | (.error e, w1) => (.exc e, w1)
      | (.ok (cmdResult, _), w1) =>
          let success := is_cmd_success cmdResult
          match is_bad_results_11 cmdResult success with
          | .error e => (.exc e, w1)
          | .ok b =>
              match cmdResult with
              | .pyStr s =>
                  let invalidCommand := pyStrip s == "Illegal Command"
                  if b && !invalidCommand then (.ret ⟨b, s⟩, w1)
                  else sendLoop oracle password cmd params retry fuel 0 false w1
              | _ => (.exc .typeError, w1)

/-! ## The batch driver: multi_rcon -/

/-- The commands keyword argument of multi_rcon: a proper Python list of
strings, or any value of another type (a string, None, and so on). -/
inductive PyCommands where
  | pyList (cs : List String)
  | notAList
deriving DecidableEq, Repr

/-- A key of the returned dictionary of multi_rcon: the integer zero used
for the type diagnostic, or a command string. -/
inductive BatchKey where
  | idx (n : Nat)
  | cmd (s : String)
deriving DecidableEq, Repr

/-- A value of the returned dictionary of multi_rcon: the diagnostic
string, or the status dictionary produced by send_command. -/
inductive BatchVal where
  | diag (s : String)
  | status (st : CmdStatus)
deriving DecidableEq, Repr

/-- The result dictionary of multi_rcon: the aggregate success flag, which
starts as None, and the returned mapping in insertion order. -/
structure BatchResult where
  success : Option Bool
  returned : List (BatchKey × BatchVal)
deriving DecidableEq, Repr

/-- Outcome of a multi_rcon run. -/
inductive MultiOutcome where
  | ret (r : BatchResult)
  | exc (e : PyExc)
  | fuelOut
deriving DecidableEq, Repr

/-- Python dictionary assignment: overwrite in place when the key exists,
append otherwise. -/
def dictInsert (key : BatchKey) (val : BatchVal) :
    List (BatchKey × BatchVal) → List (BatchKey × BatchVal)
  | [] => [(key, val)]
  | (k, v) :: rest =>
      if k = key then (key, val) :: rest
      else (k, v) :: dictInsert key val rest

/-- The loop of multi_rcon: run send_command for each command in order,
store the status under the command string, and set the aggregate success
flag to True after every completed command. -/
def multiLoop (oracle : Nat → CallResult) (password : String) (retry fuel : Nat) :
    List String → BatchResult → World → MultiOutcome × World
  | [], acc, w => (.ret acc, w)
  | c :: rest, acc, w =>
      match send_command oracle password (some c) retry fuel w with
      | (.ret st, w1) =>
          multiLoop oracle password retry fuel rest
            ⟨some true, dictInsert (.cmd c) (.status st) acc.returned⟩ w1
      | (.exc e, w1) => (.exc e, w1)
      | (.fuelOut, w1) => (.fuelOut, w1)

/-- Embedding of MiscreatedRCON.multi_rcon: the result starts with success
None and an empty dictionary; a commands value that is not a list stores
the diagnostic under the integer key zero and returns success False at
once; otherwise the commands run in order through send_command. -/
def multi_rcon (oracle : Nat → CallResult) (password : String)
    (commands : PyCommands) (retry fuel : Nat) (w : World) : MultiOutcome × World :=
  match commands with
  | .notAList =>
      (.ret ⟨some false, [(.idx 0, .diag "List not passed for commands")]⟩, w)
  | .pyList cs => multiLoop oracle password retry fuel cs ⟨none, []⟩ w

/-! ## Concrete server behaviours used in counterexamples and witnesses -/

/-- A server that accepts every call, returning a fixed benign text. -/
def oracleOK : Nat → CallResult := fun _ => .ok "All good" false

/-- A server that refuses every connection with an OSError whose text does
not contain the words timed out. -/
def oracleRefused : Nat → CallResult := fun _ => .osError false

/-- A server on which every call times out. -/
def oracleTimeout : Nat → CallResult := fun _ => .osError true

/-- A server that rejects the first command with the challenge marker and
then times out on every later call, so every challenge attempt fails. -/
def oracleChalFail : Nat → CallResult := fun k =>
  if k = 0 then .ok "[Whitelist] Invalid command: challenge" false
  else .osError true

/-- A server that rejects the first command with the challenge marker,
answers every challenge call with a numeric token, and rejects every
authenticate call. -/
def oracleNotAuth : Nat → CallResult := fun k =>
  if k = 0 then .ok "[Whitelist] Invalid command: challenge" false
  else if k % 2 = 1 then .ok "123" true
  else .ok "not authorized" false

/-- A server whose first call yields a numeric token and whose every later
call fails with an OSError, so the authenticate call raises. -/
def oracleAuthDown : Nat → CallResult := fun k =>
  if k = 0 then .ok "123" true else .osError false

/-- Does a challenge attempt fail, that is, raise or return a value the
float constructor rejects? -/
def attemptFails : CallResult → Bool
  | .ok _ true => false
  | _ => true

/-! ## Helper lemmas -/

/-- A truthy verdict of is_bad_results_11 on a string means the first
eleven characters are not the whitelist marker. -/
theorem is_bad_str_true (s : String) (b : Bool)
    (h : is_bad_results_11 (.pyStr s) b = .ok true) :
    pySlice11 s ≠ "[Whitelist]" := by
  intro hs
  by_cases he : s = ""
  · rw [he] at hs
    exact absurd hs (by decide)
  · simp only [is_bad_results_11] at h
    rw [if_neg he, hs] at h
    rw [if_pos (by decide : occursIn "[Whitelist]" "[Whitelist]" = true)] at h
    exact Bool.false_ne_true (Except.ok.inj h)

/-- The challenge loop keeps the ambient timeout absent once it is
absent. -/
theorem chalLoop_timeout_pres (oracle : Nat → CallResult) :
    ∀ r ch w, w.timeout = none → ((chalLoop oracle r ch w).2).timeout = none := by
  intro r
  induction r with
  | zero =>
      intro ch w hw
      simpa [chalLoop] using hw
  | succ n ih =>
      intro ch w _
      cases hc : oracle w.k with
      | ok s numeric =>
          cases numeric with
          | false =>
              simp only [chalLoop, hc]
              exact ih _ _ rfl
          | true => simp [chalLoop, hc]
      | osError t =>
          simp only [chalLoop, hc]
          exact ih _ _ rfl
      | otherExc =>
          simp only [chalLoop, hc]
          exact ih _ _ rfl

/-- The challenge loop restores the ambient timeout on every exit when it
runs at least one iteration. -/
theorem chalLoop_timeout_restored (oracle : Nat → CallResult) (r : Nat)
    (ch : ChalVar) (w : World) (hr : 1 ≤ r) :
    ((chalLoop oracle r ch w).2).timeout = none := by
  cases r with
  | zero => omega
  | succ n =>
      cases hc : oracle w.k with
      | ok s numeric =>
          cases numeric with
          | false =>
              simp only [chalLoop, hc]
              exact chalLoop_timeout_pres oracle n _ _ rfl
          | true => simp [chalLoop, hc]
      | osError t =>
          simp only [chalLoop, hc]
          exact chalLoop_timeout_pres oracle n _ _ rfl
      | otherExc =>
          simp only [chalLoop, hc]
          exact chalLoop_timeout_pres oracle n _ _ rfl

/-- The challenge loop makes at most as many challenge calls as its retry
budget. -/
theorem chalLoop_calls_le (oracle : Nat → CallResult) :
    ∀ r ch w, ((chalLoop oracle r ch w).2).challengeCalls ≤ w.challengeCalls + r := by
  intro r
  induction r with
  | zero =>
      intro ch w
      simp [chalLoop]
  | succ n ih =>
      intro ch w
      cases hc : oracle w.k with
      | ok s numeric =>
          cases numeric with
          | false =>
              simp only [chalLoop, hc]
              refine le_trans (ih _ _) ?_
              simp
              omega
          | true =>
              simp [chalLoop, hc]
      | osError t =>
          simp only [chalLoop, hc]
          refine le_trans (ih _ _) ?_
          simp
          omega
      | otherExc =>
          simp only [chalLoop, hc]
          refine le_trans (ih _ _) ?_
          simp
          omega

/-- One step of the challenge loop on a failing attempt: the challenge is
set to None, one call and one sleep are recorded, and the loop continues
with one fewer retry. -/
theorem chalLoop_succ_fail (oracle : Nat → CallResult) (r : Nat) (ch : ChalVar)
    (w : World) (hf : attemptFails (oracle w.k) = true) :
    chalLoop oracle (r + 1) ch w
      = chalLoop oracle r .pyNoneV
          { w with
              k := w.k + 1, timeout := none, sleeps := w.sleeps + 1,
              challengeCalls := w.challengeCalls + 1 } := by
  cases hc : oracle w.k with
  | ok s numeric =>
      cases numeric with
      | false => simp [chalLoop, hc]
      | true =>
          rw [hc] at hf
          exact absurd hf (by simp [attemptFails])
  | osError t => simp [chalLoop, hc]
  | otherExc => simp [chalLoop, hc]

/-- When every attempt of the budget fails, the challenge loop ends with
the challenge bound to None, having made exactly one call and one sleep per
budgeted attempt and restored the timeout. -/
theorem chalLoop_allFail (oracle : Nat → CallResult) :
    ∀ m ch w, (∀ i, i < m + 1 → attemptFails (oracle (w.k + i)) = true) →
      chalLoop oracle (m + 1) ch w
        = (.pyNoneV,
           { w with
               k := w.k + (m + 1), timeout := none,
               sleeps := w.sleeps + (m + 1),
               challengeCalls := w.challengeCalls + (m + 1) }) := by
  intro m
  induction m with
  | zero =>
      intro ch w h
      have h0 := h 0 (by omega)
      rw [Nat.add_zero] at h0
      cases hc : oracle w.k with
      | ok s numeric =>
          cases numeric with
          | false => simp [chalLoop, hc]
          | true =>
              rw [hc] at h0
              exact absurd h0 (by simp [attemptFails])
      | osError t => simp [chalLoop, hc]
      | otherExc => simp [chalLoop, hc]
  | succ n ih =>
      intro ch w h
      have h0 := h 0 (by omega)
      rw [Nat.add_zero] at h0
      have hrest : ∀ i, i < n + 1 →
          attemptFails (oracle (w.k + 1 + i)) = true := by
        intro i hi
        have := h (i + 1) (by omega)
        rwa [show w.k + (i + 1) = w.k + 1 + i by omega] at this
      rw [chalLoop_succ_fail oracle (n + 1) ch w h0]
      rw [ih .pyNoneV
          { w with
              k := w.k + 1, timeout := none, sleeps := w.sleeps + 1,
              challengeCalls := w.challengeCalls + 1 }
          (by simpa using hrest)]
      simp [World.mk.injEq]
      omega

/-- When the first `j` attempts fail and attempt `j` yields a numeric
token within the budget, the challenge loop stops right after that
attempt: one call per attempt made, one sleep per failed attempt, and the
timeout restored. -/
theorem chalLoop_stops_at (oracle : Nat → CallResult) :
    ∀ j r ch w, j < r →
      (∀ i, i < j → attemptFails (oracle (w.k + i)) = true) →
      ∀ s, oracle (w.k + j) = .ok s true →
      chalLoop oracle r ch w
        = (.strV s,
           { w with
               k := w.k + (j + 1), timeout := none,
               sleeps := w.sleeps + j,
               challengeCalls := w.challengeCalls + (j + 1) }) := by
  intro j
  induction j with
  | zero =>
      intro r ch w hr _ s hs
      rw [Nat.add_zero] at hs
      cases r with
      | zero => omega
      | succ n => simp [chalLoop, hs]
  | succ m ih =>
      intro r ch w hr hfail s hs
      cases r with
      | zero => omega
      | succ n =>
          have h0 := hfail 0 (by omega)
          rw [Nat.add_zero] at h0
          rw [chalLoop_succ_fail oracle n ch w h0]
          have hres := ih n .pyNoneV
              { w with
                  k := w.k + 1, timeout := none, sleeps := w.sleeps + 1,
                  challengeCalls := w.challengeCalls + 1 }
              (by omega)
              (by
                intro i hi
                have := hfail (i + 1) (by omega)
                simpa [show w.k + (i + 1) = w.k + 1 + i by omega] using this)
              s
              (by simpa [show w.k + (m + 1) = w.k + 1 + m by omega] using hs)
          rw [hres]
          simp [World.mk.injEq]
          omega

/-- A status produced by the final classification never carries a truthy
flag together with the whitelist prefix. -/
theorem finalize_no_whitelist (cR : PyVal) (w1 : World) (st : CmdStatus)
    (w' : World) (h : finalizeCmd cR w1 = (.ret st, w'))
    (hs : st.success = true) : pySlice11 st.returned ≠ "[Whitelist]" := by
  cases cR with
  | pyStr s =>
      cases hb : is_bad_results_11 (.pyStr s) true with
      | error e =>
          simp [finalizeCmd, hb] at h
      | ok b =>
          simp only [finalizeCmd, hb, Prod.mk.injEq, Outcome.ret.injEq] at h
          obtain ⟨h1, -⟩ := h
          subst h1
          simp only [] at hs
          have hbt : b = true := hs
          subst hbt
          exact is_bad_str_true s true hb
  | pyFalse => simp [finalizeCmd] at h
  | pyNone => simp [finalizeCmd] at h

/-- No status returned by the retry loop carries a truthy flag together
with the whitelist prefix. -/
theorem sendLoop_no_whitelist (oracle : Nat → CallResult) (pw cmd params : String)
    (retry : Nat) :
    ∀ fuel aa auth w st w',
      sendLoop oracle pw cmd params retry fuel aa auth w = (.ret st, w') →
      st.success = true → pySlice11 st.returned ≠ "[Whitelist]" := by
  intro fuel
  induction fuel with
  | zero =>
      intro aa auth w st w' h _
      simp [sendLoop] at h
  | succ n ih =>
      intro aa auth w st w' h hs
      simp only [sendLoop] at h
      split at h
      · split at h
        · simp at h
        · split at h
          · exact finalize_no_whitelist _ _ st _ h hs
          · exact ih _ _ _ _ _ h hs
      · split at h
        · simp at h
        · simp at h
        · split at h
          · split at h
            · simp only [Prod.mk.injEq, Outcome.ret.injEq] at h
              obtain ⟨h1, -⟩ := h
              rw [← h1] at hs
              simp at hs
            · exact ih _ _ _ _ _ h hs
          · exact ih _ _ _ _ _ h hs

/-! ## Claim theorems -/

/-- C5 (confirmed).  For every command string and every sequence of server
responses, send_command never returns a result whose success flag is true
and whose raw text starts with the eleven characters of the whitelist
marker: every returned status with a truthy flag has passed
is_bad_results_11, which forces False on that prefix. -/
theorem C5_never_success_whitelist (oracle : Nat → CallResult) (pw : String)
    (command : Option String) (retry fuel : Nat) (w : World) (st : CmdStatus)
    (w' : World) (h : send_command oracle pw command retry fuel w = (.ret st, w'))
    (hs : st.success = true) :
    pySlice11 st.returned ≠ "[Whitelist]" := by
  cases command with
  | none =>
      simp only [send_command, Prod.mk.injEq, Outcome.ret.injEq] at h
      obtain ⟨h1, -⟩ := h
      rw [← h1] at hs
      simp at hs
  | some cstr =>
      simp only [send_command] at h
      split at h
      · simp at h
      · split at h
        · simp at h
        · rename_i w1 cmdResult auth2 hE b hB
          split at h
          · rename_i s hCR
            split at h
            · rename_i hcond
              simp only [Prod.mk.injEq, Outcome.ret.injEq] at h
              obtain ⟨h1, -⟩ := h
              rw [← h1] at hs
              have hb : b = true := by simpa using hs
              rw [hb] at hB
              rw [← h1]
              exact is_bad_str_true _ _ hB
            · exact sendLoop_no_whitelist oracle pw _ _ retry fuel _ _ _ st w' h hs
          · simp at h

/-- C5 witness: a server answering a benign text lets send_command return a
truthy status, whose text indeed does not start with the whitelist
marker. -/
theorem C5_witness :
    send_command oracleOK "pw" (some "status") 10 20 w0
        = (.ret ⟨true, "All good"⟩, ⟨1, none, 0, 0, 0⟩)
    ∧ pySlice11 "All good" ≠ "[Whitelist]" :=
  ⟨by decide,
   C5_never_success_whitelist oracleOK "pw" (some "status") 10 20 w0
     ⟨true, "All good"⟩ ⟨1, none, 0, 0, 0⟩ (by decide) rfl⟩

/-- C1 counterexample: on a refused connection, exec_cmd exits through its
except clause without restoring the ambient timeout, so the post-call
timeout differs from the pre-call value. -/
theorem C1_counterexample :
    (exec_cmd oracleRefused "status" w0).2.timeout ≠ w0.timeout := by decide

/-- C1 amended: the scoped timeout is restored on successful exits of
exec_cmd, exec_cmd_params and the authenticate call, and the challenge
loop restores it on every exit; but on an OSError or any other exception,
exec_cmd, exec_cmd_params and the authenticate call leave the five-unit
timeout installed. -/
theorem C1_amended_scoped_timeout (oracle : Nat → CallResult)
    (pw cmd params : String) (w : World) :
    (∀ s n, oracle w.k = .ok s n →
        (exec_cmd oracle cmd w).2.timeout = none
        ∧ (exec_cmd_params oracle cmd params w).2.timeout = none)
    ∧ (∀ t, oracle w.k = .osError t →
        (exec_cmd oracle cmd w).2.timeout = some 5
        ∧ (exec_cmd_params oracle cmd params w).2.timeout = some 5)
    ∧ (oracle w.k = .otherExc →
        (exec_cmd oracle cmd w).2.timeout = some 5
        ∧ (exec_cmd_params oracle cmd params w).2.timeout = some 5)
    ∧ (∀ r ch, 1 ≤ r → ((chalLoop oracle r ch w).2).timeout = none)
    ∧ (∀ r s w1, chalLoop oracle r .unbound w = (.strV s, w1) →
        (∀ resp n, oracle w1.k = .ok resp n →
            (challenge_rcon oracle pw r w).2.timeout = none)
        ∧ (∀ t, oracle w1.k = .osError t →
            (challenge_rcon oracle pw r w).2.timeout = some 5)
        ∧ (oracle w1.k = .otherExc →
            (challenge_rcon oracle pw r w).2.timeout = some 5)) := by
  refine ⟨?_, ?_, ?_, ?_, ?_⟩
  · intro s n hn
    constructor <;> simp [exec_cmd, exec_cmd_params, hn]
  · intro t ht
    constructor <;> simp [exec_cmd, exec_cmd_params, ht]
  · intro ht
    constructor <;> simp [exec_cmd, exec_cmd_params, ht]
  · intro r ch hr
    exact chalLoop_timeout_restored oracle r ch w hr
  · intro r s w1 hcl
    refine ⟨?_, ?_, ?_⟩
    · intro resp n hn
      simp only [challenge_rcon, hcl]
      simp only [hn]
      split <;> rfl
    · intro t ht
      simp only [challenge_rcon, hcl]
      simp only [ht]
    · intro ht
      simp only [challenge_rcon, hcl]
      simp only [ht]

/-- C1 witness: the amended statement applied to a succeeding command
call, a refused command call, a timing-out challenge loop, a rejected but
completed authenticate call, and an authenticate call that raises. -/
theorem C1_witness :
    (exec_cmd oracleOK "status" w0).2.timeout = none
    ∧ (exec_cmd oracleRefused "status" w0).2.timeout = some 5
    ∧ ((chalLoop oracleTimeout 3 .unbound w0).2).timeout = none
    ∧ (challenge_rcon oracleNotAuth "pw" 10 w0).2.timeout = none
    ∧ (challenge_rcon oracleAuthDown "pw" 10 w0).2.timeout = some 5 :=
  ⟨((C1_amended_scoped_timeout oracleOK "pw" "status" "x" w0).1 "All good" false
      (by decide)).1,
   ((C1_amended_scoped_timeout oracleRefused "pw" "status" "x" w0).2.1 false
      (by decide)).1,
   (C1_amended_scoped_timeout oracleTimeout "pw" "status" "x" w0).2.2.2.1 3 .unbound
     (by omega),
   (((C1_amended_scoped_timeout oracleNotAuth "pw" "status" "x" w0).2.2.2.2 10 "123"
       (⟨2, none, 1, 2, 0⟩ : World) (by decide)).1 "not authorized" false (by decide)),
   (((C1_amended_scoped_timeout oracleAuthDown "pw" "status" "x" w0).2.2.2.2 10 "123"
       (⟨1, none, 0, 1, 0⟩ : World) (by decide)).2.1 false (by decide))⟩

/-- C2 (code bug): when every challenge attempt fails, challenge_rcon
returns None without one authenticate call, but do_authentication wraps
that as the pair of None and True, so send_command takes the handshake as
successful instead of counting it toward the three-strikes cap: with such a
server the call ends in a TypeError with zero authenticate calls, not in
the could-not-authenticate status. -/
theorem C2_challenge_failure_treated_as_authenticated :
    (do_authentication oracleTimeout "pw" 10 w0).1 = .ok (.pair .pyNone true)
    ∧ (challenge_rcon oracleTimeout "pw" 10 w0).2.authCalls = 0
    ∧ (send_command oracleChalFail "pw" (some "status") 10 20 w0).1
        = .exc .typeError
    ∧ (send_command oracleChalFail "pw" (some "status") 10 20 w0).2.authCalls = 0 := by
  refine ⟨?_, ?_, ?_, ?_⟩ <;> decide

/-- C3 (code bug): with a server that always rejects the credential,
send_command returns the could-not-authenticate failure only after the
fourth failed handshake (four challenge calls and four authenticate calls),
because the guard tests the attempt counter with a strict comparison
against three. -/
theorem C3_fatal_after_four_handshakes :
    send_command oracleNotAuth "pw" (some "status") 10 20 w0
      = (.ret ⟨false, "Could not authenticate with RCON"⟩, ⟨9, none, 3, 4, 4⟩) := by
  decide

/-- C4 counterexample: a refused connection in the optimistic attempt makes
send_command raise a TypeError (the length call on the boolean failure
marker), so a transport fault does propagate to the caller. -/
theorem C4_counterexample :
    (send_command oracleRefused "pw" (some "status") 10 20 w0).1
      = .exc .typeError := by decide

/-- C4 amended: exec_cmd and exec_cmd_params convert OSError faults into
the pair of False and False without raising, while faults that are not
OSError propagate as exceptions; the conversion of all faults into result
values therefore holds only at the two helpers and only for OSError. -/
theorem C4_amended_fault_conversion (oracle : Nat → CallResult)
    (cmd params : String) (w : World) :
    (∀ t, oracle w.k = .osError t →
        (exec_cmd oracle cmd w).1 = .ok (.pyFalse, false)
        ∧ (exec_cmd_params oracle cmd params w).1 = .ok (.pyFalse, false))
    ∧ (oracle w.k = .otherExc →
        (exec_cmd oracle cmd w).1 = .error .otherError
        ∧ (exec_cmd_params oracle cmd params w).1 = .error .otherError) := by
  constructor
  · intro t ht
    constructor <;> simp [exec_cmd, exec_cmd_params, ht]
  · intro ht
    constructor <;> simp [exec_cmd, exec_cmd_params, ht]

/-- C4 witness: the amended statement applied to a refused connection. -/
theorem C4_witness :
    (exec_cmd oracleRefused "status" w0).1 = .ok (.pyFalse, false) :=
  ((C4_amended_fault_conversion oracleRefused "status" "x" w0).1 false (by decide)).1

/-- C6 counterexample: a raw text whose first eleven characters differ from
the whitelist marker is still forced to False, because the membership test
is substring containment in the marker, not equality with it. -/
theorem C6_counterexample :
    is_bad_results_11 (.pyStr "[W") true = .ok false
    ∧ pySlice11 "[W" ≠ "[Whitelist]"
    ∧ "[W" ≠ "" := by decide

/-- C6 amended: the check forces False whenever the first eleven characters
of a nonempty raw text are a substring of the whitelist marker, which in
particular covers the exact marker prefix; an empty raw text returns the
prior flag unchanged, as does any text whose cut prefix is not such a
substring. -/
theorem C6_amended_soft_failure (s : String) (b : Bool) :
    (s ≠ "" → occursIn (pySlice11 s) "[Whitelist]" = true →
        is_bad_results_11 (.pyStr s) b = .ok false)
    ∧ (pySlice11 s = "[Whitelist]" → is_bad_results_11 (.pyStr s) b = .ok false)
    ∧ (s = "" → is_bad_results_11 (.pyStr s) b = .ok b)
    ∧ (occursIn (pySlice11 s) "[Whitelist]" = false →
        is_bad_results_11 (.pyStr s) b = .ok b) := by
  refine ⟨?_, ?_, ?_, ?_⟩
  · intro hne hocc
    simp [is_bad_results_11, hne, hocc]
  · intro hp
    have hne : s ≠ "" := by
      intro he
      rw [he] at hp
      exact absurd hp (by decide)
    simp [is_bad_results_11, hne, hp,
      (by decide : occursIn "[Whitelist]" "[Whitelist]" = true)]
  · intro he
    subst he
    simp [is_bad_results_11]
  · intro hocc
    by_cases he : s = ""
    · subst he
      simp [is_bad_results_11]
    · simp [is_bad_results_11, he, hocc]

/-- C6 witness: the amended statement applied to a proper-substring text
and to the challenge rejection marker, whose first eleven characters are
exactly the whitelist marker. -/
theorem C6_witness :
    is_bad_results_11 (.pyStr "White") true = .ok false
    ∧ pySlice11 "White" ≠ "[Whitelist]"
    ∧ is_bad_results_11 (.pyStr "[Whitelist] Invalid command: challenge") true
        = .ok false :=
  ⟨(C6_amended_soft_failure "White" true).1 (by decide) (by decide),
   by decide,
   (C6_amended_soft_failure "[Whitelist] Invalid command: challenge" true).2.1
     (by decide)⟩

/-- C7 counterexample: with a retry budget of zero the loop body never
runs, the challenge variable is never bound, and the membership test raises
a NameError instead of reporting the failure value. -/
theorem C7_counterexample :
    (challenge_rcon oracleRefused "pw" 0 w0).1 = .error .nameError
    ∧ (challenge_rcon oracleRefused "pw" 0 w0).1 ≠ .ok .pyNone := by decide

/-- C7 amended: for a positive retry budget, challenge acquisition makes at
most budget-many challenge calls; when every attempt fails it returns None
after exactly budget-many calls and sleeps; and as soon as any attempt
within the budget yields a numeric token the loop stops right after it,
with one call per attempt made and one sleep per failed attempt.  A budget
of zero instead raises a NameError. -/
theorem C7_amended_challenge_retry_bound (oracle : Nat → CallResult)
    (pw : String) (w : World) (r : Nat) :
    ((challenge_rcon oracle pw r w).2.challengeCalls ≤ w.challengeCalls + r)
    ∧ (∀ m, r = m + 1 →
        (∀ i, i < r → attemptFails (oracle (w.k + i)) = true) →
        challenge_rcon oracle pw r w
          = (.ok .pyNone,
             { w with
                 k := w.k + r, timeout := none, sleeps := w.sleeps + r,
                 challengeCalls := w.challengeCalls + r }))
    ∧ (∀ j s, j < r →
        (∀ i, i < j → attemptFails (oracle (w.k + i)) = true) →
        oracle (w.k + j) = .ok s true →
        chalLoop oracle r .unbound w
          = (.strV s,
             { w with
                 k := w.k + (j + 1), timeout := none,
                 sleeps := w.sleeps + j,
                 challengeCalls := w.challengeCalls + (j + 1) })) := by
  refine ⟨?_, ?_, ?_⟩
  · have hb := chalLoop_calls_le oracle r .unbound w
    rcases hcl : chalLoop oracle r .unbound w with ⟨cv, w1⟩
    rw [hcl] at hb
    simp only [challenge_rcon, hcl]
    cases cv with
    | unbound => simpa using hb
    | pyNoneV => simpa using hb
    | strV s =>
        cases hc : oracle w1.k with
        | ok resp numeric =>
            simp only [hc]
            split <;> simpa using hb
        | osError t =>
            simp only [hc]
            simpa using hb
        | otherExc =>
            simp only [hc]
            simpa using hb
  · intro m hm hfail
    subst hm
    simp only [challenge_rcon]
    rw [chalLoop_allFail oracle m .unbound w hfail]
  · intro j s hj hfail hc
    exact chalLoop_stops_at oracle j r .unbound w hj hfail s hc

/-- C7 witness: the amended statement applied to a budget of three attempts
that all time out, and to a run whose first attempt fails and whose second
attempt yields a numeric token. -/
theorem C7_witness :
    challenge_rcon oracleTimeout "pw" 3 w0
      = (.ok .pyNone, (⟨3, none, 3, 3, 0⟩ : World))
    ∧ chalLoop oracleNotAuth 10 .unbound w0
      = (.strV "123", (⟨2, none, 1, 2, 0⟩ : World)) :=
  ⟨(C7_amended_challenge_retry_bound oracleTimeout "pw" w0 3).2.1 2 rfl (by decide),
   (C7_amended_challenge_retry_bound oracleNotAuth "pw" w0 10).2.2 1 "123"
     (by omega) (by decide) (by decide)⟩

/-- C8 (confirmed): a commands argument that is not a list makes multi_rcon
return at once with success False and the single diagnostic entry under the
integer key zero, leaving the world untouched, so no transport call is
made. -/
theorem C8_nonlist_fails_fast (oracle : Nat → CallResult) (pw : String)
    (retry fuel : Nat) (w : World) :
    multi_rcon oracle pw .notAList retry fuel w
      = (.ret ⟨some false, [(.idx 0, .diag "List not passed for commands")]⟩, w) :=
  rfl

/-- C9 counterexample: two distinct challenge and password pairs whose
joined strings coincide receive the same credential, so distinct pairs do
not always produce distinct credentials. -/
theorem C9_counterexample :
    credential "1:2" "3" = credential "1" "2:3"
    ∧ (("1:2", "3") : String × String) ≠ ("1", "2:3") :=
  ⟨congrArg md5hex (by decide : authString "1:2" "3" = authString "1" "2:3"),
   by decide⟩

/-- C9 amended: the credential is the MD5 hex digest of the joined
challenge and password string; it is deterministic in the pair, and equal
joined strings give equal credentials, so distinct pairs with the same
joined string collide. -/
theorem C9_amended_credential (c1 p1 c2 p2 : String) :
    (c1 = c2 → p1 = p2 → credential c1 p1 = credential c2 p2)
    ∧ (authString c1 p1 = authString c2 p2 →
        credential c1 p1 = credential c2 p2) := by
  constructor
  · intro h1 h2
    rw [h1, h2]
  · intro h
    unfold credential
    rw [h]

/-- C9 witness: the amended statement applied to a colliding pair. -/
theorem C9_witness :
    credential "a:b" "c" = credential "a" "b:c" :=
  (C9_amended_credential "a:b" "c" "a" "b:c").2 (by decide)

/-- C10 (confirmed): an empty command list makes multi_rcon return with the
aggregate success flag still None and an empty mapping, leaving the world
untouched, so no transport call is made; the True aggregate is therefore
only ever set after at least one command has run. -/
theorem C10_empty_batch (oracle : Nat → CallResult) (pw : String)
    (retry fuel : Nat) (w : World) :
    multi_rcon oracle pw (.pyList []) retry fuel w = (.ret ⟨none, []⟩, w) :=
  rfl

end Misrcon
